import Mathlib

/-!
# Verification of the `meshtastic-js` device session core (`src/meshDevice.ts`)

This file shallow-embeds the `MeshDevice` class of `src/meshDevice.ts` as pure
Lean functions.  Mutable instance fields become a `MeshState` record, and every
observable side effect (event-bus dispatch, queue call, transport write, log
call) is recorded in an explicit `List Effect` trace, in program order.
JavaScript exceptions are modelled with `Except`: a thrown error aborts the
computation, so the effect trace of a failed run is not observed.

External collaborators that are not part of the source file are modelled at
their interface boundary:

* The protobuf codec (`toBinary` / `fromBinary` from the external schema
  library) is opaque.  Encoded host→radio frames are kept symbolically as
  `TxData.enc msg`; their byte length is an arbitrary function parameter
  `len : ToRadioVariant → Nat`.  Decoding an inbound payload succeeds exactly
  when the symbolic payload carries the expected message kind.
* `crypto.getRandomValues` is modelled as a seed stream `seeds : Nat → Nat`
  indexed by a draw counter kept in the state; each draw is reduced
  `mod 2^32` to a `Uint32` value.
* The transmit queue (`utils/queue.ts`, not under `src/`) is modelled from the
  spec, §4.2.
* Enumerations from the missing `Types.ts` / `constants.ts`
  (`DeviceStatusEnum`, `ChannelNumber.Primary`, `broadcastNum`) are modelled
  from the spec.
-/

namespace Meshtastic

/-- Modelled from the spec: device status enumeration (`Types.DeviceStatusEnum`
from the repository's `Types.ts`, which is not under `src/`).  The spec lists
the nine states {Disconnected, Connecting, Connected, Configuring, Configured,
Reconnecting, Disconnecting, FirmwareUpdate, Restarting}. -/
inductive DeviceStatus where
  | deviceDisconnected
  | deviceConnecting
  | deviceConnected
  | deviceConfiguring
  | deviceConfigured
  | deviceReconnecting
  | deviceDisconnecting
  | deviceFirmwareUpdate
  | deviceRestarting
deriving DecidableEq, Repr

/-- Modelled from the spec: `broadcastNum` from the repository's
`constants.ts` (not under `src/`); the spec fixes broadcast = 0xFFFFFFFF. -/
def broadcastNum : Nat := 0xFFFFFFFF

/-- Modelled from the spec: `Types.ChannelNumber.Primary` (the default
channel index, 0) from the missing `Types.ts`. -/
def channelPrimary : Nat := 0

/-- Modelled from the spec: `minFwVer` from the missing `constants.ts`
("minimum firmware version: numeric value published as a build-time
constant").  The concrete value is immaterial to the claims. -/
def minFwVer : Nat := 30

/-- `Types.Destination` : `number | "self" | "broadcast"`. -/
inductive Destination where
  | broadcast
  | self
  | node (n : Nat)
deriving DecidableEq, Repr

/-- The port numbers (`Protobuf.Portnums.PortNum`) that `handleDecodedPacket`
switches on, plus `other` for every value not named in the switch (which hits
the `default: throw` branch).  The schema library is external, so the ports
are kept symbolic rather than numeric. -/
inductive PortNum where
  | textMessageApp
  | remoteHardwareApp
  | positionApp
  | nodeinfoApp
  | routingApp
  | adminApp
  | waypointApp
  | audioApp
  | detectionSensorApp
  | replyApp
  | ipTunnelApp
  | paxcounterApp
  | serialApp
  | storeForwardApp
  | rangeTestApp
  | telemetryApp
  | zpsApp
  | simulatorApp
  | tracerouteApp
  | neighborinfoApp
  | atakPlugin
  | mapReportApp
  | privateApp
  | atakForwarder
  | other (n : Nat)
deriving DecidableEq, Repr

/-- `Routing_Error.NONE` of the external schema: protobuf enums reserve 0 for
the first member, and the source compares the reason against it. -/
def routingErrorNone : Nat := 0

/-- The `variant` oneof of `Protobuf.Mesh.Routing`; `unset` models a message
whose oneof case is absent (the `default: throw` branch of the source). -/
inductive RoutingVariant where
  | errorReason (reason : Nat)
  | routeReply
  | routeRequest
  | unset
deriving DecidableEq, Repr

/-- `Protobuf.Mesh.Routing`. -/
structure Routing where
  variant : RoutingVariant
deriving DecidableEq, Repr

/-- `Protobuf.Admin.AdminMessage` variants used by the source file (outbound
request builders and the inbound `ADMIN_APP` switch).  Payloads of variants
whose internal structure the source never inspects are opaque `Nat`s. -/
inductive AdminMessage where
  | beginEditSettings
  | commitEditSettings
  | setConfig (config : Nat)
  | getChannelRequest (value : Nat)
  | getChannelResponse (channel : Nat)
  | getOwnerResponse (user : Nat)
  | getConfigResponse (config : Nat)
  | getModuleConfigResponse (config : Nat)
  | getDeviceMetadataResponse (metadata : Nat)
  | otherAdmin
deriving DecidableEq, Repr

/-- The `payload` bytes of a `Protobuf.Mesh.Data` message, kept at the opaque
codec boundary: a payload produced by serializing a routing or admin message
remembers what it encodes; anything else is raw bytes. -/
inductive PayloadData where
  | bytes (data : List Nat)
  | routing (r : Routing)
  | admin (a : AdminMessage)
deriving DecidableEq, Repr

/-- `Protobuf.Mesh.Data` (the `decoded` payload of a mesh packet), with the
fields the source reads or writes. -/
structure DataMessage where
  payload : PayloadData
  portnum : PortNum
  wantResponse : Bool
  emoji : Option Nat
  replyId : Option Nat
  dest : Nat
  requestId : Nat
  source : Nat
deriving DecidableEq, Repr

/-- The `payloadVariant` oneof of `Protobuf.Mesh.MeshPacket`. -/
inductive MeshPayloadVariant where
  | decoded (dp : DataMessage)
  | encrypted (data : List Nat)
  | unset
deriving DecidableEq, Repr

/-- `Protobuf.Mesh.MeshPacket` with the fields the source reads or writes.
The TS field `from` is a Lean keyword and is rendered `from_`. -/
structure MeshPacket where
  payloadVariant : MeshPayloadVariant
  from_ : Nat
  to_ : Nat
  id : Nat
  wantAck : Bool
  channel : Nat
  rxTime : Nat
deriving DecidableEq, Repr

/-- The `payloadVariant` oneof of `Protobuf.Mesh.ToRadio` as used by the
source (`packet` from `sendPacket`, `wantConfigId` from `configure`). -/
inductive ToRadioVariant where
  | packet (p : MeshPacket)
  | wantConfigId (v : Nat)
deriving DecidableEq, Repr

/-- The `payloadVariant` oneof of `Protobuf.Mesh.FromRadio`, with the cases of
the `handleFromRadio` switch.  Payloads the source treats opaquely are
`Nat`s; `unset` covers the `default` branch. -/
inductive FromRadioVariant where
  | packet (p : MeshPacket)
  | myInfo (myNodeNum : Nat)
  | nodeInfo (num : Nat) (position : Option Nat) (user : Option Nat)
  | config (c : Nat)
  | logRecord (r : Nat)
  | configCompleteId (v : Nat)
  | rebooted
  | moduleConfig (c : Nat)
  | channel (c : Nat)
  | queueStatus (q : Nat)
  | xmodemPacket (x : Nat)
  | metadata (firmwareVersion : Nat)
  | mqttClientProxyMessage
  | unset
deriving DecidableEq, Repr

/-- `Protobuf.Mesh.FromRadio`. -/
structure FromRadio where
  id : Nat
  payloadVariant : FromRadioVariant
deriving DecidableEq, Repr

/-- The `type` field of `Types.PacketMetadata`: `"broadcast" | "direct"`. -/
inductive PacketType where
  | broadcast
  | direct
deriving DecidableEq, Repr

/-- `Types.PacketMetadata` (without the per-port `data` field).  `rxTime`
holds the millisecond value of the constructed `Date`. -/
structure PacketMetadata where
  id : Nat
  rxTime : Nat
  type : PacketType
  from_ : Nat
  to_ : Nat
  channel : Nat
deriving DecidableEq, Repr

/-- Data handed to `sendRaw` / stored in the queue: either the opaque
serialization of a structured `ToRadio` message, or raw bytes. -/
inductive TxData where
  | enc (msg : ToRadioVariant)
  | raw (bytes : List Nat)
deriving DecidableEq, Repr

/-- Byte length of a `TxData`, given the opaque codec's length function. -/
def txSize (len : ToRadioVariant → Nat) : TxData → Nat
  | .enc msg => len msg
  | .raw bytes => bytes.length

/-- Modelled from the spec: the per-entry lifecycle state of the transmit
queue (`utils/queue.ts`, not under `src/`), §4.2: Pending → Sent →
Acked/Errored. -/
inductive QState where
  | pending
  | sent
  | acked
  | errored (e : Nat)
deriving DecidableEq, Repr

/-- Modelled from the spec: a transmit-queue entry (id, payload, state). -/
structure QueueEntry where
  id : Nat
  data : TxData
  status : QState
deriving DecidableEq, Repr

/-- The event channels of the session's event bus that `handleDecodedPacket`
dispatches typed port events on. -/
inductive EventChannel where
  | messagePacket
  | remoteHardwarePacket
  | positionPacket
  | userPacket
  | channelPacket
  | configPacket
  | moduleConfigPacket
  | deviceMetadataPacket
  | waypointPacket
  | audioPacket
  | detectionSensorPacket
  | pingPacket
  | ipTunnelPacket
  | paxcounterPacket
  | serialPacket
  | storeForwardPacket
  | rangeTestPacket
  | telemetryPacket
  | zpsPacket
  | simulatorPacket
  | traceRoutePacket
  | neighborInfoPacket
  | atakPluginPacket
  | mapReportPacket
  | privatePacket
  | atakForwarderPacket
deriving DecidableEq, Repr

/-- One observable side effect of the session, recorded in program order:
event-bus dispatches, queue operations, transport writes, XMODEM forwarding
and log calls.  `onPortEvent ch meta payload` stands for dispatching on
channel `ch` the event whose `data` is obtained from `payload` (decoded with
the port's schema where one exists, raw otherwise). -/
inductive Effect where
  | onFromRadio (msg : FromRadio)
  | onMeshPacket (p : MeshPacket)
  | onMeshHeartbeat
  | onDeviceStatus (s : DeviceStatus)
  | onPendingSettingsChange (b : Bool)
  | onMyNodeInfo (num : Nat)
  | onNodeInfoPacket (num : Nat)
  | onPositionPacket (meta : PacketMetadata) (position : Nat)
  | onUserPacket (meta : PacketMetadata) (user : Nat)
  | onRoutingPacket (meta : PacketMetadata) (r : Routing)
  | onConfigPacket (c : Nat)
  | onModuleConfigPacket (c : Nat)
  | onChannelPacket (c : Nat)
  | onLogRecord (r : Nat)
  | onQueueStatus (q : Nat)
  | onDeviceMetadataPacket (meta : PacketMetadata) (d : Nat)
  | onPortEvent (ch : EventChannel) (meta : PacketMetadata) (payload : PayloadData)
  | xmodemHandle (x : Nat)
  | processAck (id : Nat)
  | processError (id : Nat) (error : Nat)
  | queuePush (id : Nat) (data : TxData)
  | writeToRadio (data : TxData)
  | logTraceEff
  | logDebugEff
  | logInfoEff
  | logWarnEff
  | logErrorEff
  | logFatalEff
deriving DecidableEq, Repr

/-- JavaScript exceptions thrown by the source (or by the model at the opaque
codec boundary). -/
inductive Err where
  | payloadTooLarge
  | cannotGenerateRandId
  | unhandledVariant
  | decodeFailure
deriving DecidableEq, Repr

/-- The mutable instance fields of `MeshDevice`, plus the draw counter of the
modelled randomness source.  `myNodeNum` is the only field of `myNodeInfo`
the source reads. -/
structure MeshState where
  deviceStatus : DeviceStatus
  isConfigured : Bool
  pendingSettingsChanges : Bool
  myNodeNum : Nat
  configId : Nat
  queue : List QueueEntry
  rngIdx : Nat
deriving DecidableEq, Repr

/-- The state of a freshly constructed `MeshDevice` (constructor, lines
56-88): status `DeviceDisconnected`, flags `false`, empty `myNodeInfo` and
queue; `configId` here instantiated with the caller-injected value 42. -/
def st0 : MeshState :=
  { deviceStatus := .deviceDisconnected
    isConfigured := false
    pendingSettingsChanges := false
    myNodeNum := 0
    configId := 42
    queue := []
    rngIdx := 0 }

/-! ## Transmit-queue operations (modelled from the spec, §4.2) -/

/-- Modelled from the spec: `queue.push` places a new entry in Pending
state. -/
def queuePushEntry (q : List QueueEntry) (id : Nat) (data : TxData) : List QueueEntry :=
  q ++ [{ id := id, data := data, status := .pending }]

/-- Modelled from the spec: `queue.processQueue(writeToRadio)` drains, in
insertion order, every Pending entry to the transport, transitioning each to
Sent.  Returns the updated entries and the transport writes performed. -/
def queueDrain (q : List QueueEntry) : List QueueEntry × List Effect :=
  (q.map fun e => if e.status = .pending then { e with status := .sent } else e,
   (q.filter fun e => e.status = .pending).map fun e => Effect.writeToRadio e.data)

/-- Modelled from the spec: `queue.processAck(id)` transitions the entry with
matching id from Sent to Acked; unknown ids are ignored. -/
def queueProcessAck (q : List QueueEntry) (id : Nat) : List QueueEntry :=
  q.map fun e => if e.id = id ∧ e.status = .sent then { e with status := .acked } else e

/-- Modelled from the spec: `queue.processError({id, error})` transitions the
entry with matching id to Errored with the given code. -/
def queueProcessError (q : List QueueEntry) (id : Nat) (error : Nat) : List QueueEntry :=
  q.map fun e => if e.id = id then { e with status := .errored error } else e

/-! ## Event-bus dispatch helpers

The constructor (lines 72-87) subscribes three handlers that run
synchronously on dispatch; dispatching one of these events therefore both
records the effect and applies the subscriber's state update. -/

/-- Dispatch `onDeviceStatus`: the constructor's subscriber stores the status
and derives `isConfigured` from it (lines 72-79). -/
def dispatchDeviceStatus (st : MeshState) (status : DeviceStatus) : MeshState × List Effect :=
  ({ st with
      deviceStatus := status
      isConfigured :=
        if status = .deviceConfigured then true
        else if status = .deviceConfiguring then false
        else st.isConfigured },
   [Effect.onDeviceStatus status])

/-- Dispatch `onMyNodeInfo`: the subscriber stores the node info (lines
81-83). -/
def dispatchMyNodeInfo (st : MeshState) (num : Nat) : MeshState × List Effect :=
  ({ st with myNodeNum := num }, [Effect.onMyNodeInfo num])

/-- Dispatch `onPendingSettingsChange`: the subscriber stores the flag (lines
85-87). -/
def dispatchPendingSettingsChange (st : MeshState) (state : Bool) : MeshState × List Effect :=
  ({ st with pendingSettingsChanges := state }, [Effect.onPendingSettingsChange state])

/-! ## Session operations -/

/-- `updateDeviceStatus` (lines 774-778): dispatch a device-status event only
when the status actually changes. -/
def updateDeviceStatus (st : MeshState) (status : DeviceStatus) : MeshState × List Effect :=
  if status ≠ st.deviceStatus then dispatchDeviceStatus st status
  else (st, [])

/-- `generateRandId` (lines 785-792): draw a `Uint32` from the CSPRNG, throw
if it is zero, otherwise return `Math.floor(seed * 2 ** -32 * 1e9)`.

The float expression is modelled by exact natural division
`seed * 10^9 / 2^32`: for `seed < 2^32` both `seed * 2^-32` and `1e9` are
exact doubles, so a single rounding (error ≤ 2^-24 for results below 2^30)
occurs in the final product, whose exact value is a multiple of `2^-23`;
the rounding can therefore never cross an integer, and `Math.floor` of the
double equals the exact floor. -/
def generateRandId (seeds : Nat → Nat) (st : MeshState) : Except Err (Nat × MeshState) :=
  let seed := seeds st.rngIdx % 4294967296
  let st1 := { st with rngIdx := st.rngIdx + 1 }
  if seed = 0 then .error .cannotGenerateRandId
  else .ok (seed * 1000000000 / 4294967296, st1)

/-- `sendRaw` (lines 225-242): reject frames longer than 512 bytes before
touching the queue, otherwise push the entry, drain the queue to the
transport, and return the entry's id (the value its completion future
eventually resolves with). -/
def sendRaw (len : ToRadioVariant → Nat) (st : MeshState) (toRadio : TxData) (id : Nat) :
    Except Err (Nat × MeshState × List Effect) :=
  if 512 < txSize len toRadio then
    .error .payloadTooLarge
  else
    let q1 := queuePushEntry st.queue id toRadio
    let drained := queueDrain q1
    .ok (id, { st with queue := drained.1 }, Effect.queuePush id toRadio :: drained.2)

/-- `sendRaw` with the defaulted `id = this.generateRandId()` argument (used
by `configure`). -/
def sendRawAuto (len : ToRadioVariant → Nat) (seeds : Nat → Nat) (st : MeshState)
    (toRadio : TxData) : Except Err (Nat × MeshState × List Effect) :=
  match generateRandId seeds st with
  | .error e => .error e
  | .ok (id, st1) => sendRaw len st1 toRadio id

/-- The `create(Protobuf.Mesh.MeshPacketSchema, {...})` expression of
`sendPacket` (lines 179-203): the mesh packet built from the caller's
arguments, with `from = myNodeInfo.myNodeNum` and `to` resolved from the
destination. -/
def sendPacketMeshPacket (myNodeNum : Nat) (byteData : PayloadData) (portNum : PortNum)
    (destination : Destination) (channel : Nat) (wantAck : Bool) (wantResponse : Bool)
    (replyId : Option Nat) (emoji : Option Nat) (packetId : Nat) : MeshPacket :=
  { payloadVariant := .decoded
      { payload := byteData
        portnum := portNum
        wantResponse := wantResponse
        emoji := emoji
        replyId := replyId
        dest := 0
        requestId := 0
        source := 0 }
    from_ := myNodeNum
    to_ :=
      match destination with
      | .broadcast => broadcastNum
      | .self => myNodeNum
      | .node n => n
    id := packetId
    wantAck := wantAck
    channel := channel
    rxTime := 0 }

/-- The `packetMetadata` record built at the top of `handleDecodedPacket`
(lines 1039-1046); `rxTime` is the millisecond value of
`new Date(meshPacket.rxTime * 1000)`. -/
def packetMetadataOf (mp : MeshPacket) : PacketMetadata :=
  { id := mp.id
    rxTime := mp.rxTime * 1000
    type := if mp.to_ = broadcastNum then .broadcast else .direct
    from_ := mp.from_
    to_ := mp.to_
    channel := mp.channel }

/-- `fromBinary(Protobuf.Mesh.RoutingSchema, payload)` at the opaque codec
boundary: succeeds exactly when the payload is the serialization of a routing
message. -/
def decodeRouting : PayloadData → Except Err Routing
  | .routing r => .ok r
  | _ => .error .decodeFailure

/-- `fromBinary(Protobuf.Admin.AdminMessageSchema, payload)` at the opaque
codec boundary. -/
def decodeAdmin : PayloadData → Except Err AdminMessage
  | .admin a => .ok a
  | _ => .error .decodeFailure

/-- `handleDecodedPacket` (lines 1032-1343): build the packet metadata and
dispatch on the port number.  `ROUTING_APP` additionally resolves the transmit
queue entry named by `dataPacket.requestId` (ack on reason `NONE`, error
otherwise); `ADMIN_APP` re-routes admin response variants to their top-level
event channels; an unhandled port or routing variant throws. -/
def handleDecodedPacket (st : MeshState) (dataPacket : DataMessage) (meshPacket : MeshPacket) :
    Except Err (MeshState × List Effect) :=
  let meta := packetMetadataOf meshPacket
  match dataPacket.portnum with
  | .textMessageApp => .ok (st, [.onPortEvent .messagePacket meta dataPacket.payload])
  | .remoteHardwareApp => .ok (st, [.onPortEvent .remoteHardwarePacket meta dataPacket.payload])
  | .positionApp => .ok (st, [.onPortEvent .positionPacket meta dataPacket.payload])
  | .nodeinfoApp => .ok (st, [.onPortEvent .userPacket meta dataPacket.payload])
  | .routingApp =>
    match decodeRouting dataPacket.payload with
    | .error e => .error e
    | .ok routingPacket =>
      match routingPacket.variant with
      | .errorReason reason =>
        if reason = routingErrorNone then
          .ok ({ st with queue := queueProcessAck st.queue dataPacket.requestId },
               [.onRoutingPacket meta routingPacket, .processAck dataPacket.requestId])
        else
          .ok ({ st with queue := queueProcessError st.queue dataPacket.requestId reason },
               [.onRoutingPacket meta routingPacket, .processError dataPacket.requestId reason])
      | .routeReply => .ok (st, [.onRoutingPacket meta routingPacket])
      | .routeRequest => .ok (st, [.onRoutingPacket meta routingPacket])
      | .unset => .error .unhandledVariant
  | .adminApp =>
    match decodeAdmin dataPacket.payload with
    | .error e => .error e
    | .ok adminMessage =>
      match adminMessage with
      | .getChannelResponse _ => .ok (st, [.onPortEvent .channelPacket meta (.admin adminMessage)])
      | .getOwnerResponse _ => .ok (st, [.onPortEvent .userPacket meta (.admin adminMessage)])
      | .getConfigResponse _ => .ok (st, [.onPortEvent .configPacket meta (.admin adminMessage)])
      | .getModuleConfigResponse _ =>
        .ok (st, [.onPortEvent .moduleConfigPacket meta (.admin adminMessage)])
      | .getDeviceMetadataResponse _ =>
        .ok (st, [.logDebugEff, .onPortEvent .deviceMetadataPacket meta (.admin adminMessage)])
      | _ => .ok (st, [.logErrorEff])
  | .waypointApp => .ok (st, [.onPortEvent .waypointPacket meta dataPacket.payload])
  | .audioApp => .ok (st, [.onPortEvent .audioPacket meta dataPacket.payload])
  | .detectionSensorApp => .ok (st, [.onPortEvent .detectionSensorPacket meta dataPacket.payload])
  | .replyApp => .ok (st, [.onPortEvent .pingPacket meta dataPacket.payload])
  | .ipTunnelApp => .ok (st, [.onPortEvent .ipTunnelPacket meta dataPacket.payload])
  | .paxcounterApp => .ok (st, [.onPortEvent .paxcounterPacket meta dataPacket.payload])
  | .serialApp => .ok (st, [.onPortEvent .serialPacket meta dataPacket.payload])
  | .storeForwardApp => .ok (st, [.onPortEvent .storeForwardPacket meta dataPacket.payload])
  | .rangeTestApp => .ok (st, [.onPortEvent .rangeTestPacket meta dataPacket.payload])
  | .telemetryApp => .ok (st, [.onPortEvent .telemetryPacket meta dataPacket.payload])
  | .zpsApp => .ok (st, [.onPortEvent .zpsPacket meta dataPacket.payload])
  | .simulatorApp => .ok (st, [.onPortEvent .simulatorPacket meta dataPacket.payload])
  | .tracerouteApp => .ok (st, [.onPortEvent .traceRoutePacket meta dataPacket.payload])
  | .neighborinfoApp => .ok (st, [.onPortEvent .neighborInfoPacket meta dataPacket.payload])
  | .atakPlugin => .ok (st, [.onPortEvent .atakPluginPacket meta dataPacket.payload])
  | .mapReportApp => .ok (st, [.onPortEvent .mapReportPacket meta dataPacket.payload])
  | .privateApp => .ok (st, [.onPortEvent .privatePacket meta dataPacket.payload])
  | .atakForwarder => .ok (st, [.onPortEvent .atakForwarderPacket meta dataPacket.payload])
  | .other _ => .error .unhandledVariant

/-- `handleMeshPacket` (lines 1003-1030): dispatch `onMeshPacket`, dispatch a
mesh heartbeat when the packet is from a foreign node, then handle the
payload variant (`decoded` → `handleDecodedPacket`, `encrypted` → log and
ignore, anything else → throw). -/
def handleMeshPacket (st : MeshState) (meshPacket : MeshPacket) :
    Except Err (MeshState × List Effect) :=
  let effs0 := Effect.onMeshPacket meshPacket ::
    (if meshPacket.from_ ≠ st.myNodeNum then [Effect.onMeshHeartbeat] else [])
  match meshPacket.payloadVariant with
  | .decoded dp =>
    match handleDecodedPacket st dp meshPacket with
    | .error e => .error e
    | .ok (st1, effs1) => .ok (st1, effs0 ++ effs1)
  | .encrypted _ => .ok (st, effs0 ++ [Effect.logDebugEff])
  | .unset => .error .unhandledVariant

/-- `sendPacket` (lines 163-220): generate a fresh packet id, build the mesh
packet and its `ToRadio` wrapper, inject the packet (with `rxTime = now`, in
seconds) into the inbound demultiplexer when `echoResponse` is set, then
transmit through `sendRaw`.  The echo mutation of `rxTime` happens before
serialization, so the transmitted frame carries it too. -/
def sendPacket (len : ToRadioVariant → Nat) (seeds : Nat → Nat) (st : MeshState)
    (byteData : PayloadData) (portNum : PortNum) (destination : Destination)
    (channel : Nat) (wantAck : Bool) (wantResponse : Bool) (echoResponse : Bool)
    (replyId : Option Nat) (emoji : Option Nat) (now : Nat) :
    Except Err (Nat × MeshState × List Effect) :=
  match generateRandId seeds st with
  | .error e => .error e
  | .ok (packetId, st1) =>
    let meshPacket := sendPacketMeshPacket st1.myNodeNum byteData portNum destination channel
      wantAck wantResponse replyId emoji packetId
    if echoResponse then
      let mp := { meshPacket with rxTime := now }
      match handleMeshPacket st1 mp with
      | .error e => .error e
      | .ok (st2, echoEffs) =>
        match sendRaw len st2 (.enc (.packet mp)) mp.id with
        | .error e => .error e
        | .ok (rid, st3, rawEffs) => .ok (rid, st3, echoEffs ++ rawEffs)
    else
      match sendRaw len st1 (.enc (.packet meshPacket)) meshPacket.id with
      | .error e => .error e
      | .ok (rid, st2, rawEffs) => .ok (rid, st2, rawEffs)

/-- `configure` (lines 732-747): transition to `DeviceConfiguring` and send a
raw `wantConfigId` frame carrying the lockstep identifier.  The returned
`Except` is the promise outcome; the state and effects up to a rejection are
kept, matching a caller that `.catch`es the promise. -/
def configure (len : ToRadioVariant → Nat) (seeds : Nat → Nat) (st : MeshState) :
    MeshState × List Effect × Except Err Nat :=
  let updated := updateDeviceStatus st .deviceConfiguring
  match sendRawAuto len seeds updated.1 (.enc (.wantConfigId updated.1.configId)) with
  | .ok (id, st2, effs2) => (st2, updated.2 ++ effs2, .ok id)
  | .error e => (updated.1, updated.2, .error e)

/-- `beginEditSettings` (lines 542-557): dispatch the pending-settings flag
(true) on the event bus, then send a `beginEditSettings` admin request to
self with `sendPacket`'s default arguments. -/
def beginEditSettings (len : ToRadioVariant → Nat) (seeds : Nat → Nat) (st : MeshState) :
    Except Err (Nat × MeshState × List Effect) :=
  let dispatched := dispatchPendingSettingsChange st true
  match sendPacket len seeds dispatched.1 (.admin .beginEditSettings) .adminApp .self
      channelPrimary true true false none none 0 with
  | .error e => .error e
  | .ok (id, st2, effs2) => .ok (id, st2, dispatched.2 ++ effs2)

/-- `setConfig` (lines 247-269): when no settings changes are pending, first
await `beginEditSettings`, then send the `setConfig` admin request to self. -/
def setConfig (len : ToRadioVariant → Nat) (seeds : Nat → Nat) (st : MeshState)
    (config : Nat) : Except Err (Nat × MeshState × List Effect) :=
  if !st.pendingSettingsChanges then
    match beginEditSettings len seeds st with
    | .error e => .error e
    | .ok (_, st1, effs1) =>
      match sendPacket len seeds st1 (.admin (.setConfig config)) .adminApp .self
          channelPrimary true true false none none 0 with
      | .error e => .error e
      | .ok (id, st2, effs2) => .ok (id, st2, effs1 ++ effs2)
  else
    sendPacket len seeds st (.admin (.setConfig config)) .adminApp .self
      channelPrimary true true false none none 0

/-- `getChannel` (lines 393-411): send a `getChannelRequest` admin request
whose value is `index + 1`, on port `ADMIN_APP` to destination self. -/
def getChannel (len : ToRadioVariant → Nat) (seeds : Nat → Nat) (st : MeshState)
    (index : Nat) : Except Err (Nat × MeshState × List Effect) :=
  sendPacket len seeds st (.admin (.getChannelRequest (index + 1))) .adminApp .self
    channelPrimary true true false none none 0

/-- `handleFromRadio` (lines 798-993): dispatch the raw `onFromRadio` event
and switch on the payload variant.  `now` is the millisecond clock value used
for the `new Date()` receive stamps. -/
def handleFromRadio (len : ToRadioVariant → Nat) (seeds : Nat → Nat) (now : Nat)
    (st : MeshState) (decodedMessage : FromRadio) : Except Err (MeshState × List Effect) :=
  let eff0 := Effect.onFromRadio decodedMessage
  match decodedMessage.payloadVariant with
  | .packet p =>
    match handleMeshPacket st p with
    | .error e => .error e
    | .ok (st1, effs1) => .ok (st1, eff0 :: effs1)
  | .myInfo num =>
    let dispatched := dispatchMyNodeInfo st num
    .ok (dispatched.1, eff0 :: dispatched.2 ++ [Effect.logInfoEff])
  | .nodeInfo num position user =>
    let meta : PacketMetadata :=
      { id := decodedMessage.id, rxTime := now, type := .direct,
        from_ := num, to_ := num, channel := channelPrimary }
    .ok (st, eff0 :: Effect.logInfoEff :: Effect.onNodeInfoPacket num ::
      ((match position with
        | some p => [Effect.onPositionPacket meta p]
        | none => []) ++
       (match user with
        | some u => [Effect.onUserPacket meta u]
        | none => [])))
  | .config c => .ok (st, [eff0, .logTraceEff, .onConfigPacket c])
  | .logRecord r => .ok (st, [eff0, .logTraceEff, .onLogRecord r])
  | .configCompleteId v =>
    let mismatchEffs := if v ≠ st.configId then [Effect.logErrorEff] else []
    let updated := updateDeviceStatus st .deviceConfigured
    .ok (updated.1, eff0 :: mismatchEffs ++ [Effect.logInfoEff] ++ updated.2)
  | .rebooted =>
    let configured := configure len seeds st
    .ok (configured.1, eff0 :: configured.2.1)
  | .moduleConfig c => .ok (st, [eff0, .logTraceEff, .onModuleConfigPacket c])
  | .channel c => .ok (st, [eff0, .logTraceEff, .onChannelPacket c])
  | .queueStatus q => .ok (st, [eff0, .logTraceEff, .onQueueStatus q])
  | .xmodemPacket x => .ok (st, [eff0, .xmodemHandle x])
  | .metadata firmwareVersion =>
    let meta : PacketMetadata :=
      { id := decodedMessage.id, rxTime := now, type := .direct,
        from_ := 0, to_ := 0, channel := channelPrimary }
    let fatalEffs := if firmwareVersion < minFwVer then [Effect.logFatalEff] else []
    .ok (st, eff0 :: fatalEffs ++
      [Effect.logDebugEff, Effect.onDeviceMetadataPacket meta firmwareVersion])
  | .mqttClientProxyMessage => .ok (st, [eff0])
  | .unset => .ok (st, [eff0, .logWarnEff])

/-! ## Observation helpers used by the theorem statements -/

/-- The final state of a run, when it did not throw. -/
def runState : Except Err (MeshState × List Effect) → Option MeshState
  | .ok (st, _) => some st
  | .error _ => none

/-- The effect trace of a run that did not throw. -/
def runEffects : Except Err (MeshState × List Effect) → List Effect
  | .ok (_, effs) => effs
  | .error _ => []

/-- The admin messages carried by the packets pushed onto the transmit queue,
in push order. -/
def pushedAdminPayloads (effs : List Effect) : List AdminMessage :=
  effs.filterMap fun e =>
    match e with
    | .queuePush _ (.enc (.packet mp)) =>
      match mp.payloadVariant with
      | .decoded dp =>
        match dp.payload with
        | .admin a => some a
        | _ => none
      | _ => none
    | _ => none

/-- The device statuses carried by the `onDeviceStatus` events of a trace, in
dispatch order. -/
def emittedStatuses (effs : List Effect) : List DeviceStatus :=
  effs.filterMap fun e =>
    match e with
    | .onDeviceStatus s => some s
    | _ => none

/-- Iterate `updateDeviceStatus` over a list of requested statuses,
concatenating the traces. -/
def runStatusUpdates (st : MeshState) : List DeviceStatus → MeshState × List Effect
  | [] => (st, [])
  | s :: rest =>
    let step := updateDeviceStatus st s
    let tail := runStatusUpdates step.1 rest
    (tail.1, step.2 ++ tail.2)

/-- The id value `generateRandId` produces from the next seed draw of the
stream, when that draw is nonzero. -/
def randVal (seeds : Nat → Nat) (st : MeshState) : Nat :=
  seeds st.rngIdx % 4294967296 * 1000000000 / 4294967296

/-! ## Helper lemmas -/

theorem generateRandId_ok {seeds : Nat → Nat} {st : MeshState} {pid : Nat} {st1 : MeshState}
    (h : generateRandId seeds st = .ok (pid, st1)) :
    seeds st.rngIdx % 4294967296 ≠ 0 ∧ pid = randVal seeds st ∧
    st1 = { st with rngIdx := st.rngIdx + 1 } := by
  simp only [generateRandId] at h
  split at h
  · exact absurd h (by simp)
  · rename_i hz
    simp only [Except.ok.injEq, Prod.mk.injEq] at h
    exact ⟨hz, h.1.symm, h.2.symm⟩

theorem sendRaw_ok {len : ToRadioVariant → Nat} {st : MeshState} {toRadio : TxData}
    {id rid : Nat} {st2 : MeshState} {effs : List Effect}
    (h : sendRaw len st toRadio id = .ok (rid, st2, effs)) :
    rid = id ∧ txSize len toRadio ≤ 512 ∧
    st2 = { st with queue := (queueDrain (queuePushEntry st.queue id toRadio)).1 } ∧
    effs = Effect.queuePush id toRadio :: (queueDrain (queuePushEntry st.queue id toRadio)).2 := by
  unfold sendRaw at h
  split at h
  · exact absurd h (by simp)
  · rename_i hsize
    simp only [Except.ok.injEq, Prod.mk.injEq] at h
    exact ⟨h.1.symm, Nat.not_lt.mp hsize, h.2.1.symm, h.2.2.symm⟩

theorem pushedAdminPayloads_drain (q : List QueueEntry) :
    pushedAdminPayloads (queueDrain q).2 = [] := by
  simp only [pushedAdminPayloads, queueDrain, List.filterMap_map]
  rw [List.filterMap_eq_nil_iff]
  intro a _
  rfl

/-! ## C2 : oversize frames are rejected before touching the queue -/

/-- C2: for every byte sequence whose length exceeds 512 bytes, `sendRaw`
throws `PayloadTooLarge` synchronously: the run produces no new state and no
effects (in particular no `queuePush` and no `writeToRadio`), so the queue is
unchanged and nothing reaches the transport. -/
theorem sendRaw_oversize_rejected (len : ToRadioVariant → Nat) (st : MeshState)
    (toRadio : TxData) (id : Nat) (h : 512 < txSize len toRadio) :
    sendRaw len st toRadio id = .error .payloadTooLarge := by
  simp [sendRaw, h]

theorem sendRaw_oversize_rejected_witness :
    512 < txSize (fun _ => 600) (.enc (.wantConfigId 0)) ∧
    sendRaw (fun _ => 600) st0 (.enc (.wantConfigId 0)) 7 = .error .payloadTooLarge :=
  ⟨by decide, sendRaw_oversize_rejected (fun _ => 600) st0 (.enc (.wantConfigId 0)) 7 (by decide)⟩

/-! ## C4 : the packet id generator -/

/-- C4 counterexample: the claim says the generated id "is never zero", but
for the nonzero 32-bit seed 1 the source computes
`Math.floor(1 * 2^-32 * 1e9) = 0` and returns it without raising — the same
happens for every seed in 1..4. -/
theorem generateRandId_returns_zero :
    generateRandId (fun _ => 1) st0 = .ok (0, { st0 with rngIdx := 1 }) := rfl

/-- C4 (amended): for every 32-bit seed, a zero seed raises an error;
otherwise the generator returns `floor(seed * 2^-32 * 10^9)` =
`seed * 10^9 / 2^32`, which lies in `[0, 10^9)` — but it IS zero exactly for
the seeds 1..4 (`seed * 10^9 < 2^32`), not "never". -/
theorem generateRandId_range (seeds : Nat → Nat) (st : MeshState) :
    (seeds st.rngIdx % 4294967296 = 0 →
      generateRandId seeds st = .error .cannotGenerateRandId) ∧
    (seeds st.rngIdx % 4294967296 ≠ 0 →
      generateRandId seeds st =
        .ok (seeds st.rngIdx % 4294967296 * 1000000000 / 4294967296,
             { st with rngIdx := st.rngIdx + 1 }) ∧
      seeds st.rngIdx % 4294967296 * 1000000000 / 4294967296 < 1000000000 ∧
      (seeds st.rngIdx % 4294967296 * 1000000000 / 4294967296 = 0 ↔
        seeds st.rngIdx % 4294967296 ≤ 4)) := by
  constructor
  · intro h
    simp [generateRandId, h]
  · intro h
    refine ⟨by simp [generateRandId, h], ?_, ?_⟩
    · have hlt : seeds st.rngIdx % 4294967296 < 4294967296 :=
        Nat.mod_lt _ (by norm_num)
      rw [Nat.div_lt_iff_lt_mul (by norm_num : 0 < 4294967296)]
      omega
    · rw [Nat.div_eq_zero_iff (by norm_num : 0 < 4294967296)]
      omega

/-! ## C1 : ROUTING_APP ack / error correlation -/

/-- C1: for every inbound decoded mesh packet on port `ROUTING_APP` whose
routing message variant is `errorReason`, the session dispatches the routing
event and then — as the immediately following effect — calls
`queue.processAck(dataPacket.requestId)` when the reason is `NONE` and
`queue.processError(dataPacket.requestId, reason)` otherwise. -/
theorem routing_errorReason_resolves_queue (st : MeshState) (mp : MeshPacket)
    (dp : DataMessage) (r : Routing) (reason : Nat)
    (hvar : mp.payloadVariant = .decoded dp)
    (hport : dp.portnum = .routingApp)
    (hpay : dp.payload = .routing r)
    (herr : r.variant = .errorReason reason) :
    handleMeshPacket st mp = .ok
      (if reason = routingErrorNone
        then { st with queue := queueProcessAck st.queue dp.requestId }
        else { st with queue := queueProcessError st.queue dp.requestId reason },
       (Effect.onMeshPacket mp ::
         (if mp.from_ ≠ st.myNodeNum then [Effect.onMeshHeartbeat] else [])) ++
       [Effect.onRoutingPacket (packetMetadataOf mp) r,
        if reason = routingErrorNone then Effect.processAck dp.requestId
        else Effect.processError dp.requestId reason]) := by
  simp only [handleMeshPacket, hvar, handleDecodedPacket, hport, hpay, decodeRouting, herr]
  by_cases hr : reason = routingErrorNone <;> by_cases hf : mp.from_ = st.myNodeNum <;>
    simp [hr, hf]

/-- A concrete routing `Data` message with `errorReason = NONE` and
`requestId = 77`. -/
def dpRouting : DataMessage :=
  { payload := .routing { variant := .errorReason 0 }
    portnum := .routingApp
    wantResponse := false
    emoji := none
    replyId := none
    dest := 0
    requestId := 77
    source := 0 }

/-- A concrete inbound mesh packet from a foreign node carrying
`dpRouting`. -/
def mpRouting : MeshPacket :=
  { payloadVariant := .decoded dpRouting
    from_ := 5
    to_ := 0
    id := 3
    wantAck := false
    channel := 0
    rxTime := 2 }

theorem routing_errorReason_resolves_queue_witness :
    handleMeshPacket st0 mpRouting = .ok (st0,
      [Effect.onMeshPacket mpRouting, Effect.onMeshHeartbeat,
       Effect.onRoutingPacket (packetMetadataOf mpRouting) { variant := .errorReason 0 },
       Effect.processAck 77]) := by
  have h := routing_errorReason_resolves_queue st0 mpRouting dpRouting
    { variant := .errorReason 0 } 0 rfl rfl rfl rfl
  exact h

/-! ## C9 : device-status deduplication -/

theorem runStatusUpdates_chain (ss : List DeviceStatus) (st : MeshState) :
    List.Chain' (fun a b => a ≠ b)
      (st.deviceStatus :: emittedStatuses (runStatusUpdates st ss).2) := by
  induction ss generalizing st with
  | nil => simp [runStatusUpdates, emittedStatuses]
  | cons s rest ih =>
    by_cases h : s = st.deviceStatus
    · have hst := ih st
      simp only [runStatusUpdates, updateDeviceStatus, h]
      simpa [emittedStatuses] using hst
    · have hih := ih (dispatchDeviceStatus st s).1
      simp only [runStatusUpdates, updateDeviceStatus]
      rw [if_pos (by exact h)]
      simp only [dispatchDeviceStatus] at hih ⊢
      simp [emittedStatuses, List.chain'_cons] at hih ⊢
      refine ⟨fun hh => h hh.symm, ?_⟩
      exact hih

/-- C9: `updateDeviceStatus(s)` with `s` equal to the current status
dispatches nothing and leaves the whole session state unchanged; with a
differing `s` it dispatches exactly one `onDeviceStatus` event carrying `s`
(whose subscriber stores `s` as the current status) — hence over any sequence
of status updates no two consecutive dispatched statuses are equal. -/
theorem updateDeviceStatus_dedup (st : MeshState) (s : DeviceStatus) (ss : List DeviceStatus) :
    (s = st.deviceStatus → updateDeviceStatus st s = (st, [])) ∧
    (s ≠ st.deviceStatus →
      (updateDeviceStatus st s).2 = [Effect.onDeviceStatus s] ∧
      (updateDeviceStatus st s).1.deviceStatus = s) ∧
    List.Chain' (fun a b => a ≠ b) (emittedStatuses (runStatusUpdates st ss).2) := by
  refine ⟨?_, ?_, ?_⟩
  · intro h
    simp [updateDeviceStatus, h]
  · intro h
    simp [updateDeviceStatus, dispatchDeviceStatus, h]
  · exact (runStatusUpdates_chain ss st).tail

theorem updateDeviceStatus_dedup_witness :
    updateDeviceStatus st0 .deviceDisconnected = (st0, []) ∧
    (updateDeviceStatus st0 .deviceConnected).2 = [Effect.onDeviceStatus .deviceConnected] ∧
    List.Chain' (fun a b => a ≠ b) (emittedStatuses (runStatusUpdates st0
      [.deviceConnecting, .deviceConnected, .deviceConnected]).2) :=
  ⟨(updateDeviceStatus_dedup st0 .deviceDisconnected []).1 rfl,
   ((updateDeviceStatus_dedup st0 .deviceConnected []).2.1 (by decide)).1,
   (updateDeviceStatus_dedup st0 .deviceConnecting
      [.deviceConnecting, .deviceConnected, .deviceConnected]).2.2⟩

/-- Full characterization of a successful `sendPacket` run without echo: the
seed draw was nonzero, the returned id is the generated one, and the run
pushed exactly the constructed packet followed by the queue drain's writes. -/
theorem sendPacket_noecho_ok {len : ToRadioVariant → Nat} {seeds : Nat → Nat} {st : MeshState}
    {byteData : PayloadData} {portNum : PortNum} {destination : Destination}
    {channel : Nat} {wantAck wantResponse : Bool} {replyId emoji : Option Nat} {now : Nat}
    {rid : Nat} {st2 : MeshState} {effs : List Effect}
    (h : sendPacket len seeds st byteData portNum destination channel wantAck wantResponse
        false replyId emoji now = .ok (rid, st2, effs)) :
    seeds st.rngIdx % 4294967296 ≠ 0 ∧
    rid = randVal seeds st ∧
    st2 = { st with
      rngIdx := st.rngIdx + 1
      queue := (queueDrain (queuePushEntry st.queue (randVal seeds st)
        (.enc (.packet (sendPacketMeshPacket st.myNodeNum byteData portNum destination channel
          wantAck wantResponse replyId emoji (randVal seeds st)))))).1 } ∧
    effs = Effect.queuePush (randVal seeds st)
        (.enc (.packet (sendPacketMeshPacket st.myNodeNum byteData portNum destination channel
          wantAck wantResponse replyId emoji (randVal seeds st)))) ::
      (queueDrain (queuePushEntry st.queue (randVal seeds st)
        (.enc (.packet (sendPacketMeshPacket st.myNodeNum byteData portNum destination channel
          wantAck wantResponse replyId emoji (randVal seeds st)))))).2 := by
  unfold sendPacket at h
  split at h
  · exact absurd h (by simp)
  · rename_i pid st1 heq
    obtain ⟨hz, hpid, hst1⟩ := generateRandId_ok heq
    subst hpid hst1
    simp only [Bool.false_eq_true, if_false] at h
    split at h
    · exact absurd h (by simp)
    · rename_i rid' st2' effs' heq2
      simp only [Except.ok.injEq, Prod.mk.injEq] at h
      obtain ⟨h1, h2, h3⟩ := h
      subst h1 h2 h3
      obtain ⟨hrid, hsize, hst2, heffs⟩ := sendRaw_ok heq2
      subst hrid hst2 heffs
      refine ⟨hz, rfl, rfl, rfl⟩

/-- Every successful `sendPacket` run (echoing or not) pushes onto the
transmit queue, under the returned id, a packet carrying the caller's decoded
payload, `from = my-node` and the resolved destination. -/
theorem sendPacket_ok_pushes {len : ToRadioVariant → Nat} {seeds : Nat → Nat} {st : MeshState}
    {byteData : PayloadData} {portNum : PortNum} {destination : Destination}
    {channel : Nat} {wantAck wantResponse echoResponse : Bool} {replyId emoji : Option Nat}
    {now rid : Nat} {st2 : MeshState} {effs : List Effect}
    (h : sendPacket len seeds st byteData portNum destination channel wantAck wantResponse
        echoResponse replyId emoji now = .ok (rid, st2, effs)) :
    ∃ mp : MeshPacket, Effect.queuePush rid (.enc (.packet mp)) ∈ effs ∧
      mp.payloadVariant = .decoded
        { payload := byteData, portnum := portNum, wantResponse := wantResponse,
          emoji := emoji, replyId := replyId, dest := 0, requestId := 0, source := 0 } ∧
      mp.from_ = st.myNodeNum ∧
      mp.to_ = (match destination with
        | .broadcast => broadcastNum
        | .self => st.myNodeNum
        | .node n => n) := by
  cases echoResponse with
  | false =>
    obtain ⟨hz, hrid, hst2, heffs⟩ := sendPacket_noecho_ok h
    subst hrid heffs
    refine ⟨_, List.mem_cons_self _ _, rfl, rfl, ?_⟩
    cases destination <;> rfl
  | true =>
    unfold sendPacket at h
    split at h
    · exact absurd h (by simp)
    · rename_i pid st1 heq
      obtain ⟨hz, hpid, hst1⟩ := generateRandId_ok heq
      subst hst1
      simp only [if_true] at h
      split at h
      · exact absurd h (by simp)
      · rename_i stE echoEffs heq2
        split at h
        · exact absurd h (by simp)
        · rename_i rid' st3' rawEffs' heq3
          simp only [Except.ok.injEq, Prod.mk.injEq] at h
          obtain ⟨hr1, hr2, hr3⟩ := h
          subst hr1 hr2 hr3
          obtain ⟨hrid, hsize, hst3, heffs⟩ := sendRaw_ok heq3
          subst hrid heffs
          refine ⟨_, List.mem_append_right _ (List.mem_cons_self _ _), rfl, rfl, ?_⟩
          cases destination <;> rfl

theorem pushedAdminPayloads_nil : pushedAdminPayloads [] = [] := rfl

theorem pushedAdminPayloads_append (xs ys : List Effect) :
    pushedAdminPayloads (xs ++ ys) = pushedAdminPayloads xs ++ pushedAdminPayloads ys := by
  simp [pushedAdminPayloads]

theorem pushedAdminPayloads_pending (b : Bool) (l : List Effect) :
    pushedAdminPayloads (Effect.onPendingSettingsChange b :: l) = pushedAdminPayloads l := by
  simp [pushedAdminPayloads, List.filterMap_cons]

theorem pushedAdminPayloads_push_admin (id myNodeNum : Nat) (a : AdminMessage)
    (portNum : PortNum) (destination : Destination) (channel : Nat)
    (wantAck wantResponse : Bool) (replyId emoji : Option Nat) (pid : Nat) (l : List Effect) :
    pushedAdminPayloads (Effect.queuePush id (.enc (.packet
        (sendPacketMeshPacket myNodeNum (.admin a) portNum destination channel wantAck
          wantResponse replyId emoji pid))) :: l) = a :: pushedAdminPayloads l := by
  simp [pushedAdminPayloads, sendPacketMeshPacket, List.filterMap_cons]

theorem pending_notMem_drain (q : List QueueEntry) (b : Bool) :
    Effect.onPendingSettingsChange b ∉ (queueDrain q).2 := by
  simp [queueDrain]

/-! ## C3 : destination resolution in sendPacket -/

/-- C3: every successful `sendPacket` run pushes (under the returned id) a
mesh packet whose `to` field resolves the destination: `"broadcast"` to
0xFFFFFFFF, `"self"` to the stored my-node number, and a numeric destination
`n` to `n` itself. -/
theorem sendPacket_destination_resolution (len : ToRadioVariant → Nat) (seeds : Nat → Nat)
    (st : MeshState) (byteData : PayloadData) (portNum : PortNum) (destination : Destination)
    (channel : Nat) (wantAck wantResponse echoResponse : Bool) (replyId emoji : Option Nat)
    (now : Nat) {rid : Nat} {st2 : MeshState} {effs : List Effect}
    (h : sendPacket len seeds st byteData portNum destination channel wantAck wantResponse
        echoResponse replyId emoji now = .ok (rid, st2, effs)) :
    ∃ mp : MeshPacket, Effect.queuePush rid (.enc (.packet mp)) ∈ effs ∧
      mp.to_ = (match destination with
        | .broadcast => 0xFFFFFFFF
        | .self => st.myNodeNum
        | .node n => n) := by
  obtain ⟨mp, hmem, hpv, hfrom, hto⟩ := sendPacket_ok_pushes h
  refine ⟨mp, hmem, ?_⟩
  cases destination <;> simpa [broadcastNum] using hto

/-- The packet built by `sendPacket` for a numeric destination 9 from the
freshly constructed session (used as a concrete witness input). -/
def mpNode9 : MeshPacket :=
  sendPacketMeshPacket 0 (.bytes []) .textMessageApp (.node 9) 0 true true none none 1

theorem sendPacket_destination_resolution_witness :
    ∃ mp : MeshPacket,
      Effect.queuePush 1 (.enc (.packet mp)) ∈
        [Effect.queuePush 1 (.enc (.packet mpNode9)),
         Effect.writeToRadio (.enc (.packet mpNode9))] ∧
      mp.to_ = 9 :=
  sendPacket_destination_resolution (fun _ => 10) (fun _ => 5) st0 (.bytes [])
    .textMessageApp (.node 9) 0 true true false none none 0 rfl

/-! ## C7 : echoResponse injects the packet before transmission -/

/-- C7: with `echoResponse = true`, `sendPacket` hands the constructed mesh
packet — with `rxTime` set to the current wall-clock seconds `now` — to the
inbound demultiplexer `handleMeshPacket` first, and only then invokes
`sendRaw`: the run's trace is the echo dispatches followed by the
transmission effects. -/
theorem sendPacket_echo_before_transmit (len : ToRadioVariant → Nat) (seeds : Nat → Nat)
    (st : MeshState) (byteData : PayloadData) (portNum : PortNum) (destination : Destination)
    (channel : Nat) (wantAck wantResponse : Bool) (replyId emoji : Option Nat) (now : Nat)
    {pid : Nat} {st1 st2 st3 : MeshState} {echoEffs rawEffs : List Effect} {rid : Nat}
    (h1 : generateRandId seeds st = .ok (pid, st1))
    (h2 : handleMeshPacket st1
        { sendPacketMeshPacket st1.myNodeNum byteData portNum destination channel wantAck
            wantResponse replyId emoji pid with rxTime := now } = .ok (st2, echoEffs))
    (h3 : sendRaw len st2
        (.enc (.packet { sendPacketMeshPacket st1.myNodeNum byteData portNum destination
            channel wantAck wantResponse replyId emoji pid with rxTime := now })) pid =
      .ok (rid, st3, rawEffs)) :
    sendPacket len seeds st byteData portNum destination channel wantAck wantResponse true
      replyId emoji now = .ok (rid, st3, echoEffs ++ rawEffs) := by
  simp only [sendPacketMeshPacket] at h2 h3
  simp only [sendPacket, sendPacketMeshPacket, h1, if_true]
  simp only [h2, h3]

/-- The echoed packet of the concrete C7 witness run: text packet to node 9,
`rxTime` stamped 123. -/
def mpEcho : MeshPacket :=
  { sendPacketMeshPacket 0 (.bytes [72]) .textMessageApp (.node 9) 0 true true none none 1
    with rxTime := 123 }

theorem sendPacket_echo_before_transmit_witness :
    sendPacket (fun _ => 10) (fun _ => 5) st0 (.bytes [72]) .textMessageApp (.node 9) 0
      true true true none none 123 = .ok (1,
        { st0 with rngIdx := 1, queue := [⟨1, .enc (.packet mpEcho), .sent⟩] },
        [Effect.onMeshPacket mpEcho,
         Effect.onPortEvent .messagePacket (packetMetadataOf mpEcho) (.bytes [72])] ++
        [Effect.queuePush 1 (.enc (.packet mpEcho)),
         Effect.writeToRadio (.enc (.packet mpEcho))]) :=
  sendPacket_echo_before_transmit (fun _ => 10) (fun _ => 5) st0 (.bytes [72])
    .textMessageApp (.node 9) 0 true true none none 123 rfl rfl rfl

/-! ## C8 : setConfig opens an edit session exactly when none is pending -/

/-- C8: a successful `setConfig` with no pending settings changes first
dispatches the pending-changes flag (true) on the event bus and enqueues a
`beginEditSettings` admin packet before the `setConfig` packet, leaving the
flag set; with the flag already set it enqueues only the `setConfig` packet
and touches neither the flag nor the bus. -/
theorem setConfig_edit_session (len : ToRadioVariant → Nat) (seeds : Nat → Nat)
    (st : MeshState) (config : Nat) {rid : Nat} {st2 : MeshState} {effs : List Effect}
    (h : setConfig len seeds st config = .ok (rid, st2, effs)) :
    (st.pendingSettingsChanges = false →
      pushedAdminPayloads effs = [.beginEditSettings, .setConfig config] ∧
      Effect.onPendingSettingsChange true ∈ effs ∧
      st2.pendingSettingsChanges = true) ∧
    (st.pendingSettingsChanges = true →
      pushedAdminPayloads effs = [.setConfig config] ∧
      ∀ b, Effect.onPendingSettingsChange b ∉ effs) := by
  cases hp : st.pendingSettingsChanges with
  | false =>
    refine ⟨fun _ => ?_, fun hc => by simp [hp] at hc⟩
    unfold setConfig at h
    rw [hp] at h
    simp only [Bool.not_false, if_true] at h
    unfold beginEditSettings at h
    simp only [dispatchPendingSettingsChange] at h
    split at h
    · exact absurd h (by simp)
    · rename_i idB stB effsB heqB
      split at heqB
      · exact absurd heqB (by simp)
      · rename_i idB0 stB0 effsB0 heqBB
        simp only [Except.ok.injEq, Prod.mk.injEq] at heqB
        obtain ⟨hb1, hb2, hb3⟩ := heqB
        subst hb1 hb2 hb3
        split at h
        · exact absurd h (by simp)
        · rename_i idC stC effsC heqC
          simp only [Except.ok.injEq, Prod.mk.injEq] at h
          obtain ⟨h1, h2, h3⟩ := h
          subst h1 h2 h3
          obtain ⟨hzB, hridB, hstB, heffsB⟩ := sendPacket_noecho_ok heqBB
          subst hridB hstB heffsB
          obtain ⟨hzC, hridC, hstC, heffsC⟩ := sendPacket_noecho_ok heqC
          subst hridC hstC heffsC
          refine ⟨?_, ?_, rfl⟩
          · simp [pushedAdminPayloads_append, pushedAdminPayloads_pending,
              pushedAdminPayloads_push_admin, pushedAdminPayloads_drain, pushedAdminPayloads_nil]
          · simp
  | true =>
    refine ⟨fun hc => by simp [hp] at hc, fun _ => ?_⟩
    unfold setConfig at h
    rw [hp] at h
    simp only [Bool.not_true, Bool.false_eq_true, if_false] at h
    obtain ⟨hz, hrid, hst2, heffs⟩ := sendPacket_noecho_ok h
    subst hrid hst2 heffs
    constructor
    · simp [pushedAdminPayloads_push_admin, pushedAdminPayloads_drain]
    · intro b
      simp [pending_notMem_drain _ b]

/-- The `beginEditSettings` admin packet of the concrete C8 witness run. -/
def mpBeginEdit : MeshPacket :=
  sendPacketMeshPacket 0 (.admin .beginEditSettings) .adminApp .self 0 true true none none 1

/-- The `setConfig` admin packet of the concrete C8 witness run. -/
def mpSetConfig3 : MeshPacket :=
  sendPacketMeshPacket 0 (.admin (.setConfig 3)) .adminApp .self 0 true true none none 1

/-- The effect trace of the concrete C8 witness run. -/
def effsSetConfig : List Effect :=
  [.onPendingSettingsChange true,
   .queuePush 1 (.enc (.packet mpBeginEdit)), .writeToRadio (.enc (.packet mpBeginEdit)),
   .queuePush 1 (.enc (.packet mpSetConfig3)), .writeToRadio (.enc (.packet mpSetConfig3))]

/-- The final state of the concrete C8 witness run. -/
def stSetConfig : MeshState :=
  { deviceStatus := .deviceDisconnected, isConfigured := false, pendingSettingsChanges := true,
    myNodeNum := 0, configId := 42,
    queue := [⟨1, .enc (.packet mpBeginEdit), .sent⟩, ⟨1, .enc (.packet mpSetConfig3), .sent⟩],
    rngIdx := 2 }

theorem setConfig_edit_session_witness :
    pushedAdminPayloads effsSetConfig = [.beginEditSettings, .setConfig 3] ∧
    Effect.onPendingSettingsChange true ∈ effsSetConfig ∧
    stSetConfig.pendingSettingsChanges = true :=
  (setConfig_edit_session (fun _ => 10) (fun _ => 5) st0 3 rfl).1 rfl

/-! ## C10 : getChannel requests index + 1 -/

/-- C10: every successful `getChannel(i)` run pushes an `ADMIN_APP` packet to
self (`to` = stored my-node number) whose admin payload is a
`getChannelRequest` carrying `i + 1`, not `i`. -/
theorem getChannel_requests_index_plus_one (len : ToRadioVariant → Nat) (seeds : Nat → Nat)
    (st : MeshState) (index : Nat) {rid : Nat} {st2 : MeshState} {effs : List Effect}
    (h : getChannel len seeds st index = .ok (rid, st2, effs)) :
    ∃ mp : MeshPacket, Effect.queuePush rid (.enc (.packet mp)) ∈ effs ∧
      mp.payloadVariant = .decoded
        { payload := .admin (.getChannelRequest (index + 1)), portnum := .adminApp,
          wantResponse := true, emoji := none, replyId := none, dest := 0, requestId := 0,
          source := 0 } ∧
      mp.to_ = st.myNodeNum := by
  unfold getChannel at h
  obtain ⟨mp, hmem, hpv, hfrom, hto⟩ := sendPacket_ok_pushes h
  exact ⟨mp, hmem, hpv, hto⟩

/-- The admin packet of the concrete C10 witness run (`getChannel 2`). -/
def mpGetChannel : MeshPacket :=
  sendPacketMeshPacket 0 (.admin (.getChannelRequest 3)) .adminApp .self 0 true true none none 1

theorem getChannel_requests_index_plus_one_witness :
    ∃ mp : MeshPacket,
      Effect.queuePush 1 (.enc (.packet mp)) ∈
        [Effect.queuePush 1 (.enc (.packet mpGetChannel)),
         Effect.writeToRadio (.enc (.packet mpGetChannel))] ∧
      mp.payloadVariant = .decoded
        { payload := .admin (.getChannelRequest 3), portnum := .adminApp,
          wantResponse := true, emoji := none, replyId := none, dest := 0, requestId := 0,
          source := 0 } ∧
      mp.to_ = st0.myNodeNum :=
  getChannel_requests_index_plus_one (fun _ => 10) (fun _ => 5) st0 2 rfl

/-! ## C5 : configCompleteId always transitions to Configured -/

/-- C5: on receipt of a `configCompleteId` message the session ends with
device status `Configured` regardless of whether the received id matches the
stored lockstep identifier; a mismatch adds an error-log effect (and a match
does not), but neither aborts nor changes the transition. -/
theorem configCompleteId_sets_configured (len : ToRadioVariant → Nat) (seeds : Nat → Nat)
    (now fid v : Nat) (st : MeshState) :
    (runState (handleFromRadio len seeds now st
        { id := fid, payloadVariant := .configCompleteId v })).map MeshState.deviceStatus =
      some .deviceConfigured ∧
    (v ≠ st.configId →
      Effect.logErrorEff ∈ runEffects (handleFromRadio len seeds now st
        { id := fid, payloadVariant := .configCompleteId v })) ∧
    (v = st.configId →
      Effect.logErrorEff ∉ runEffects (handleFromRadio len seeds now st
        { id := fid, payloadVariant := .configCompleteId v })) := by
  by_cases hv : v = st.configId
  · by_cases hs : DeviceStatus.deviceConfigured = st.deviceStatus
    · simp [handleFromRadio, runState, runEffects, updateDeviceStatus,
        dispatchDeviceStatus, hv, ← hs]
    · simp [handleFromRadio, runState, runEffects, updateDeviceStatus,
        dispatchDeviceStatus, hv, hs]
  · by_cases hs : DeviceStatus.deviceConfigured = st.deviceStatus
    · simp [handleFromRadio, runState, runEffects, updateDeviceStatus,
        dispatchDeviceStatus, hv, ← hs]
    · simp [handleFromRadio, runState, runEffects, updateDeviceStatus,
        dispatchDeviceStatus, hv, hs]

theorem configCompleteId_sets_configured_witness :
    (runState (handleFromRadio (fun _ => 0) (fun _ => 5) 0 st0
        { id := 1, payloadVariant := .configCompleteId 43 })).map MeshState.deviceStatus =
      some .deviceConfigured ∧
    Effect.logErrorEff ∈ runEffects (handleFromRadio (fun _ => 0) (fun _ => 5) 0 st0
        { id := 1, payloadVariant := .configCompleteId 43 }) :=
  ⟨(configCompleteId_sets_configured (fun _ => 0) (fun _ => 5) 0 1 43 st0).1,
   (configCompleteId_sets_configured (fun _ => 0) (fun _ => 5) 0 1 43 st0).2.1 (by decide)⟩

/-! ## C6 : rebooted triggers reconfiguration -/

/-- C6: on receipt of a `rebooted` message the session re-invokes
`configure()`: the device status ends at `Configuring` and a raw
`wantConfigId` frame carrying the stored lockstep identifier is pushed onto
the transmit queue (here under the hypotheses that the fresh id draw is
nonzero and the encoded frame fits the 512-byte budget, so that the enqueue
does not throw). -/
theorem rebooted_triggers_reconfigure (len : ToRadioVariant → Nat) (seeds : Nat → Nat)
    (now fid : Nat) (st : MeshState)
    (hseed : seeds st.rngIdx % 4294967296 ≠ 0)
    (hlen : len (.wantConfigId st.configId) ≤ 512) :
    (runState (handleFromRadio len seeds now st { id := fid, payloadVariant := .rebooted })).map
        MeshState.deviceStatus = some .deviceConfiguring ∧
    Effect.queuePush (randVal seeds st) (.enc (.wantConfigId st.configId)) ∈
      runEffects (handleFromRadio len seeds now st { id := fid, payloadVariant := .rebooted }) := by
  by_cases hs : DeviceStatus.deviceConfiguring = st.deviceStatus
  · simp [handleFromRadio, configure, updateDeviceStatus, dispatchDeviceStatus, sendRawAuto,
      generateRandId, hseed, sendRaw, txSize, Nat.not_lt.mpr hlen, runState, runEffects,
      randVal, ← hs]
  · simp [handleFromRadio, configure, updateDeviceStatus, dispatchDeviceStatus, sendRawAuto,
      generateRandId, hseed, sendRaw, txSize, Nat.not_lt.mpr hlen, runState, runEffects,
      randVal, hs]

theorem rebooted_triggers_reconfigure_witness :
    (runState (handleFromRadio (fun _ => 9) (fun _ => 5) 0 st0
        { id := 1, payloadVariant := .rebooted })).map MeshState.deviceStatus =
      some .deviceConfiguring ∧
    Effect.queuePush (randVal (fun _ => 5) st0) (.enc (.wantConfigId st0.configId)) ∈
      runEffects (handleFromRadio (fun _ => 9) (fun _ => 5) 0 st0
        { id := 1, payloadVariant := .rebooted }) :=
  rebooted_triggers_reconfigure (fun _ => 9) (fun _ => 5) 0 1 st0 (by decide) (by decide)

theorem generateRandId_range_witness :
    (fun _ : Nat => 5) st0.rngIdx % 4294967296 ≠ 0 ∧
    generateRandId (fun _ => 5) st0 = .ok (1, { st0 with rngIdx := 1 }) ∧
    (1 : Nat) < 1000000000 :=
  ⟨by decide, ((generateRandId_range (fun _ => 5) st0).2 (by decide)).1,
    by decide⟩

end Meshtastic
